import Mathlib

/-!
Shallow embedding of the routing agent in src/agent_graph.py (class MistralAgent).

The mutable Python state dict (keys input, output, next, processing_type, fixed
by the initial_state built in MistralAgent.run) is modelled by the structure
AgentState.  The external LLM backend (self.llm.invoke) is modelled by a
function of type String → Except String String: Except.ok is a normal reply,
Except.error carries the message of a raised exception.  Each graph node is a
pure function on AgentState, parametrised by that backend.  Python substring
containment (pat in s) and str.lower are modelled on character lists; the
keyword patterns are ASCII, so the ASCII Char.toLower model matches.
-/

/-- Boolean test that the first list is an initial segment of the second
(used to model Python substring search). -/
def leadsWith : List Char → List Char → Bool
  | [], _ => true
  | _ :: _, [] => false
  | p :: ps, c :: cs => (p == c) && leadsWith ps cs

/-- Python substring containment pat in s on character lists. -/
def containsSub (pat : List Char) : List Char → Bool
  | [] => pat.isEmpty
  | c :: rest => leadsWith pat (c :: rest) || containsSub pat rest

/-- Python pat in s on strings. -/
def strContains (pat s : String) : Bool := containsSub pat.data s.data

/-- Boolean test that p is an initial segment of s, on strings. -/
def strStarts (p s : String) : Bool := leadsWith p.data s.data

/-- Python str.lower (ASCII model; all router keywords are ASCII). -/
def pyLower (s : String) : String := String.mk (s.data.map Char.toLower)

/-- The state dict threaded through the LangGraph graph.  The four keys are
exactly those of the initial_state dict built in MistralAgent.run. -/
structure AgentState where
  input : String
  output : String
  next : String
  processing_type : String
deriving DecidableEq

/-- The external text-generation backend self.llm.invoke: a reply on success,
an exception message on failure. -/
abbrev LLM := String → Except String String

/-- The math_patterns list of MistralAgent.router_node. -/
def mathPatterns : List String := ["+", "-", "*", "/", "calculate", "solve", "math", "equation"]

/-- The summarization keyword list of MistralAgent.router_node. -/
def summarizeKeywords : List String := ["summarize", "summary", "sum up"]

/-- MistralAgent.router_node: lower-case the input, route to math if any math
pattern occurs, else to summarizer if any summarization keyword occurs, else
to fallback.  The processing_type field records the category
(mathematical / summarization / general). -/
def router_node (state : AgentState) : AgentState :=
  let user_input := pyLower state.input
  if mathPatterns.any (fun pat => strContains pat user_input) then
    { state with next := "math", processing_type := "mathematical" }
  else if summarizeKeywords.any (fun kw => strContains kw user_input) then
    { state with next := "summarizer", processing_type := "summarization" }
  else
    { state with next := "fallback", processing_type := "general" }

/-- MistralAgent.decide_next_node (the next key is always present once the
router has run, so the Python dict-get default never fires). -/
def decide_next_node (state : AgentState) : String := state.next

/-- The math-focused f-string prompt of MistralAgent.math_node (the
surrounding indentation of the Python triple-quoted literal is kept). -/
def math_prompt (user_input : String) : String :=
  "\n        You are a mathematical problem solver. Solve the following problem step by step:\n        \n        Problem: " ++ user_input ++ "\n        \n        Please provide:\n        1. The calculation steps\n        2. The final answer\n        \n        Be precise and show your work clearly.\n        "

/-- MistralAgent.math_node: invoke the backend on the math prompt; on success
write the tagged solution to output, on an exception write the tagged error
string embedding the message. -/
def math_node (llm : LLM) (state : AgentState) : AgentState :=
  match llm (math_prompt state.input) with
  | Except.ok response =>
      { state with output := "[MATH] Math Solution:\n" ++ response }
  | Except.error e =>
      { state with output := "[ERROR] Math Error: Could not solve the problem. Error: " ++ e }

/-- Membership of the Python regex whitespace class backslash-s (ASCII). -/
def isPyWhitespace (c : Char) : Bool :=
  c = ' ' || c = '\t' || c = '\n' || c = '\x0b' || c = '\x0c' || c = '\r'

/-- Drop the maximal run of leading regex whitespace. -/
def dropWs : List Char → List Char
  | [] => []
  | c :: cs => if isPyWhitespace c then dropWs cs else c :: cs

/-- Drop one leading colon if present. -/
def dropColon : List Char → List Char
  | [] => []
  | c :: cs => if c = ':' then cs else c :: cs

/-- Models the re.sub call of MistralAgent.summarizer_node, which deletes,
anchored at the very start of the input, a case-insensitive summarize token,
one optional colon and the following run of whitespace; inputs not starting
with the token (for instance because of leading whitespace) are unchanged. -/
def stripSummarize (s : String) : String :=
  if (s.data.take 9).map Char.toLower = "summarize".data then
    String.mk (dropWs (dropColon (s.data.drop 9)))
  else s

/-- The summarization f-string prompt of MistralAgent.summarizer_node. -/
def summary_prompt (text_to_summarize : String) : String :=
  "\n        You are a text summarization expert. Create a concise and informative summary of the following text:\n        \n        Text to summarize: " ++ text_to_summarize ++ "\n        \n        Please provide:\n        1. A brief summary (2-3 sentences)\n        2. Key points if applicable\n        \n        Keep it clear and concise.\n        "

/-- MistralAgent.summarizer_node: strip the summarize token, invoke the
backend on the summary prompt, and write the tagged reply or the tagged
error string to output. -/
def summarizer_node (llm : LLM) (state : AgentState) : AgentState :=
  let text_to_summarize := stripSummarize state.input
  match llm (summary_prompt text_to_summarize) with
  | Except.ok response =>
      { state with output := "[SUMMARY] Summary:\n" ++ response }
  | Except.error e =>
      { state with output := "[ERROR] Summary Error: Could not summarize the text. Error: " ++ e }

/-- The general f-string prompt of MistralAgent.final_node. -/
def general_prompt (user_input : String) : String :=
  "\n            You are a helpful assistant. Please respond to the following query:\n            \n            Query: " ++ user_input ++ "\n            \n            Provide a helpful and informative response.\n            "

/-- MistralAgent.final_node: when no output was produced yet (the Python
truthiness test on the output string), run the general fallback responder;
otherwise the state passes through unchanged (the node only prints). -/
def final_node (llm : LLM) (state : AgentState) : AgentState :=
  if state.output = "" then
    match llm (general_prompt state.input) with
    | Except.ok response =>
        { state with output := "[GENERAL] General Response:\n" ++ response }
    | Except.error e =>
        { state with output := "[ERROR] Error: Could not process your request. Error: " ++ e }
  else state

/-- The initial_state dict built by MistralAgent.run. -/
def initial_state (user_input : String) : AgentState :=
  { input := user_input, output := "", next := "", processing_type := "" }

/-- One invocation of the compiled graph of MistralAgent.build_graph:
router first, then the conditional edge (math to the math node, summarizer to
the summarizer node, fallback straight to final), then the final node. -/
def graph_invoke (llm : LLM) (state : AgentState) : AgentState :=
  let s1 := router_node state
  let s2 :=
    if decide_next_node s1 = "math" then math_node llm s1
    else if decide_next_node s1 = "summarizer" then summarizer_node llm s1
    else s1
  final_node llm s2

/-- MistralAgent.run: invoke the graph on the initial state; any exception
escaping the graph is caught and turned into the error state returned by the
except branch. -/
def run (invokeGraph : AgentState → Except String AgentState) (user_input : String) : AgentState :=
  match invokeGraph (initial_state user_input) with
  | Except.ok result => result
  | Except.error e =>
      { input := user_input
        output := "[ERROR] Agent Error: " ++ e
        next := "error"
        processing_type := "error" }

/-- Modelled from the spec words of the prefix-stripping sentence (refinement
target for claim C5, deliberately NOT taken from the source): remove an
optional run of leading whitespace, then the case-insensitive summarize
token, then an optional colon and the following whitespace. -/
def specStripSummarize (s : String) : String :=
  let t := dropWs s.data
  if (t.take 9).map Char.toLower = "summarize".data then
    String.mk (dropWs (dropColon (t.drop 9)))
  else s

/-! Helper lemmas about the substring primitives. -/

lemma leadsWith_self (l : List Char) : leadsWith l l = true := by
  induction l with
  | nil => rfl
  | cons c cs ih => simp [leadsWith, ih]

lemma leadsWith_append_of {p l : List Char} (h : leadsWith p l = true) (t : List Char) :
    leadsWith p (l ++ t) = true := by
  induction p generalizing l with
  | nil => rfl
  | cons a as ih =>
    cases l with
    | nil => simp [leadsWith] at h
    | cons c cs =>
      simp only [leadsWith, Bool.and_eq_true] at h
      simp only [List.cons_append, leadsWith, Bool.and_eq_true]
      exact ⟨h.1, ih h.2 ⟩

lemma leadsWith_append_false {p l : List Char} (hlen : p.length ≤ l.length)
    (h : leadsWith p l = false) (t : List Char) :
    leadsWith p (l ++ t) = false := by
  induction p generalizing l with
  | nil => simp [leadsWith] at h
  | cons a as ih =>
    cases l with
    | nil => simp at hlen
    | cons c cs =>
      simp only [List.length_cons, Nat.succ_le_succ_iff] at hlen
      simp only [leadsWith, Bool.and_eq_false_iff] at h
      simp only [List.cons_append, leadsWith, Bool.and_eq_false_iff]
      cases h with
      | inl hac => exact Or.inl hac
      | inr hrest => exact Or.inr (ih hlen hrest)

lemma containsSub_of_leadsWith {pat s : List Char} (h : leadsWith pat s = true) :
    containsSub pat s = true := by
  cases s with
  | nil =>
    cases pat with
    | nil => rfl
    | cons p ps => simp [leadsWith] at h
  | cons c cs => simp [containsSub, h]

lemma containsSub_cons {pat s : List Char} (c : Char) (h : containsSub pat s = true) :
    containsSub pat (c :: s) = true := by
  simp [containsSub, h]

lemma containsSub_append {pat s : List Char} (t : List Char) (h : containsSub pat s = true) :
    containsSub pat (t ++ s) = true := by
  induction t with
  | nil => simpa using h
  | cons c cs ih => simpa [List.cons_append] using containsSub_cons c ih

lemma containsSub_self (l : List Char) : containsSub l l = true :=
  containsSub_of_leadsWith (leadsWith_self l)

lemma strContains_append_self (a b : String) : strContains b (a ++ b) = true := by
  unfold strContains
  rw [String.data_append]
  exact containsSub_append a.data (containsSub_self b.data)

lemma str_append_ne_empty (a b : String) (h : a ≠ "") : a ++ b ≠ "" := by
  intro hab
  apply h
  have hd : (a ++ b).data = ([] : List Char) := by rw [hab]
  rw [String.data_append] at hd
  exact String.ext (List.append_eq_nil.mp hd).1

lemma strStarts_append {p a : String} (h : strStarts p a = true) (b : String) :
    strStarts p (a ++ b) = true := by
  unfold strStarts at h ⊢
  rw [String.data_append]
  exact leadsWith_append_of h b.data

lemma strStarts_append_false {p a : String} (hlen : p.data.length ≤ a.data.length)
    (h : strStarts p a = false) (b : String) :
    strStarts p (a ++ b) = false := by
  unfold strStarts at h ⊢
  rw [String.data_append]
  exact leadsWith_append_false hlen h b.data

/-! Helper lemmas about the router branches. -/

lemma router_math {s : AgentState}
    (h : mathPatterns.any (fun pat => strContains pat (pyLower s.input)) = true) :
    router_node s = { s with next := "math", processing_type := "mathematical" } := by
  simp [router_node, h]

lemma router_summarizer {s : AgentState}
    (hm : mathPatterns.any (fun pat => strContains pat (pyLower s.input)) = false)
    (hs : summarizeKeywords.any (fun kw => strContains kw (pyLower s.input)) = true) :
    router_node s = { s with next := "summarizer", processing_type := "summarization" } := by
  simp [router_node, hm, hs]

lemma router_fallback {s : AgentState}
    (hm : mathPatterns.any (fun pat => strContains pat (pyLower s.input)) = false)
    (hs : summarizeKeywords.any (fun kw => strContains kw (pyLower s.input)) = false) :
    router_node s = { s with next := "fallback", processing_type := "general" } := by
  simp [router_node, hm, hs]

/-- C1: any input whose lower-cased form contains one of the math marker
substrings is routed to the math node with category mathematical, regardless
of any other content (the math check comes first). -/
theorem C1_math_markers_route_math (state : AgentState)
    (h : ∃ pat ∈ mathPatterns, strContains pat (pyLower state.input) = true) :
    (router_node state).next = "math"
    ∧ (router_node state).processing_type = "mathematical" := by
  have hany : mathPatterns.any (fun pat => strContains pat (pyLower state.input)) = true := by
    rw [List.any_eq_true]
    exact h
  rw [router_math hany]
  exact ⟨rfl, rfl⟩

/-- Witness for C1 at a mixed input that also holds a summarize keyword. -/
theorem C1_math_markers_route_math_witness :
    (router_node (initial_state "summarize 2+2")).next = "math"
    ∧ (router_node (initial_state "summarize 2+2")).processing_type = "mathematical" :=
  C1_math_markers_route_math (initial_state "summarize 2+2") ⟨"+", by decide, by decide⟩

/-- C2: an input whose lower-cased form contains a summarization keyword and
no math marker is routed to the summarizer node with category summarization. -/
theorem C2_summarize_keywords_route_summarizer (state : AgentState)
    (hs : ∃ kw ∈ summarizeKeywords, strContains kw (pyLower state.input) = true)
    (hm : ∀ pat ∈ mathPatterns, strContains pat (pyLower state.input) = false) :
    (router_node state).next = "summarizer"
    ∧ (router_node state).processing_type = "summarization" := by
  have hanys : summarizeKeywords.any (fun kw => strContains kw (pyLower state.input)) = true := by
    rw [List.any_eq_true]
    exact hs
  have hanym : mathPatterns.any (fun pat => strContains pat (pyLower state.input)) = false := by
    rw [List.any_eq_false]
    intro pat hmem
    simp [hm pat hmem]
  rw [router_summarizer hanym hanys]
  exact ⟨rfl, rfl⟩

/-- Witness for C2 at the input Please give a summary. -/
theorem C2_summarize_keywords_route_summarizer_witness :
    (router_node (initial_state "Please give a summary")).next = "summarizer"
    ∧ (router_node (initial_state "Please give a summary")).processing_type = "summarization" :=
  C2_summarize_keywords_route_summarizer (initial_state "Please give a summary")
    ⟨"summary", by decide, by decide⟩ (by decide)

/-- C3: an input containing neither a math marker nor a summarization keyword
is routed to the fallback with category general. -/
theorem C3_other_inputs_route_general (state : AgentState)
    (hm : ∀ pat ∈ mathPatterns, strContains pat (pyLower state.input) = false)
    (hs : ∀ kw ∈ summarizeKeywords, strContains kw (pyLower state.input) = false) :
    (router_node state).next = "fallback"
    ∧ (router_node state).processing_type = "general" := by
  have hanym : mathPatterns.any (fun pat => strContains pat (pyLower state.input)) = false := by
    rw [List.any_eq_false]
    intro pat hmem
    simp [hm pat hmem]
  have hanys : summarizeKeywords.any (fun kw => strContains kw (pyLower state.input)) = false := by
    rw [List.any_eq_false]
    intro kw hmem
    simp [hs kw hmem]
  rw [router_fallback hanym hanys]
  exact ⟨rfl, rfl⟩

/-- Witness for C3 at the empty input, the edge case named by the claim. -/
theorem C3_other_inputs_route_general_witness :
    (router_node (initial_state "")).next = "fallback"
    ∧ (router_node (initial_state "")).processing_type = "general" :=
  C3_other_inputs_route_general (initial_state "") (by decide) (by decide)

/-! Helper lemmas about the responder nodes. -/

lemma final_node_of_nonempty {llm : LLM} {s : AgentState} (h : s.output ≠ "") :
    final_node llm s = s := by
  simp [final_node, h]

lemma math_node_output_nonempty (llm : LLM) (s : AgentState) :
    (math_node llm s).output ≠ "" := by
  unfold math_node
  cases llm (math_prompt s.input) with
  | ok response =>
      exact str_append_ne_empty "[MATH] Math Solution:\n" response (by decide)
  | error e =>
      exact str_append_ne_empty "[ERROR] Math Error: Could not solve the problem. Error: " e
        (by decide)

lemma summarizer_node_output_nonempty (llm : LLM) (s : AgentState) :
    (summarizer_node llm s).output ≠ "" := by
  cases h : llm (summary_prompt (stripSummarize s.input)) with
  | ok response =>
      simp only [summarizer_node, h]
      exact str_append_ne_empty "[SUMMARY] Summary:\n" response (by decide)
  | error e =>
      simp only [summarizer_node, h]
      exact str_append_ne_empty "[ERROR] Summary Error: Could not summarize the text. Error: " e
        (by decide)

lemma err_output_props (lit e : String) (hs : strStarts "[ERROR]" lit = true)
    (hne : lit ≠ "") :
    strStarts "[ERROR]" (lit ++ e) = true
    ∧ strContains e (lit ++ e) = true
    ∧ lit ++ e ≠ "" :=
  ⟨strStarts_append hs e, strContains_append_self lit e, str_append_ne_empty lit e hne⟩

/-- C4: when the backend raises, each of the three responders (math,
summarize, general fallback) catches the exception locally and stores in
output an error string that starts with the [ERROR] tag and embeds the
exception message, and the output is non-empty; nothing is propagated (the
nodes are total functions). -/
theorem C4_backend_error_contained (llm : LLM) (state : AgentState) (e : String)
    (herr : ∀ p, llm p = Except.error e) (h0 : state.output = "") :
    ((math_node llm state).output
        = "[ERROR] Math Error: Could not solve the problem. Error: " ++ e
      ∧ strStarts "[ERROR]" (math_node llm state).output = true
      ∧ strContains e (math_node llm state).output = true
      ∧ (math_node llm state).output ≠ "")
    ∧ ((summarizer_node llm state).output
        = "[ERROR] Summary Error: Could not summarize the text. Error: " ++ e
      ∧ strStarts "[ERROR]" (summarizer_node llm state).output = true
      ∧ strContains e (summarizer_node llm state).output = true
      ∧ (summarizer_node llm state).output ≠ "")
    ∧ ((final_node llm state).output
        = "[ERROR] Error: Could not process your request. Error: " ++ e
      ∧ strStarts "[ERROR]" (final_node llm state).output = true
      ∧ strContains e (final_node llm state).output = true
      ∧ (final_node llm state).output ≠ "") := by
  have hmath : math_node llm state
      = { state with output := "[ERROR] Math Error: Could not solve the problem. Error: " ++ e } := by
    simp [math_node, herr]
  have hsum : summarizer_node llm state
      = { state with output := "[ERROR] Summary Error: Could not summarize the text. Error: " ++ e } := by
    simp [summarizer_node, herr]
  have hfin : final_node llm state
      = { state with output := "[ERROR] Error: Could not process your request. Error: " ++ e } := by
    simp [final_node, h0, herr]
  rw [hmath, hsum, hfin]
  refine ⟨⟨rfl, ?_⟩, ⟨rfl, ?_⟩, ⟨rfl, ?_⟩⟩
  · exact err_output_props _ e (by decide) (by decide)
  · exact err_output_props _ e (by decide) (by decide)
  · exact err_output_props _ e (by decide) (by decide)

/-- Witness for C4: a backend that always raises with message boom. -/
theorem C4_backend_error_contained_witness :
    (math_node (fun _ => Except.error "boom") (initial_state "q")).output
      = "[ERROR] Math Error: Could not solve the problem. Error: " ++ "boom" :=
  (C4_backend_error_contained (fun _ => Except.error "boom") (initial_state "q") "boom"
    (fun _ => rfl) rfl).1.1

/-- C8: when the output field is already non-empty, the final node returns
the state with every field unchanged (it only prints). -/
theorem C8_final_node_no_mutation (llm : LLM) (state : AgentState)
    (h : state.output ≠ "") :
    final_node llm state = state := by
  simp [final_node, h]

/-- Witness for C8 at a concrete populated state. -/
theorem C8_final_node_no_mutation_witness :
    final_node (fun _ => Except.ok "reply")
        { input := "hi", output := "[MATH] done", next := "math", processing_type := "mathematical" }
      = { input := "hi", output := "[MATH] done", next := "math", processing_type := "mathematical" } :=
  C8_final_node_no_mutation (fun _ => Except.ok "reply")
    { input := "hi", output := "[MATH] done", next := "math", processing_type := "mathematical" }
    (by decide)

/-- C9: the routing decision depends only on the input text: two states with
the same input are routed alike, and running the router twice changes
nothing beyond the first run (no hidden state). -/
theorem C9_router_deterministic_idempotent (s t : AgentState) (h : s.input = t.input) :
    (router_node s).next = (router_node t).next
    ∧ (router_node s).processing_type = (router_node t).processing_type
    ∧ router_node (router_node s) = router_node s := by
  by_cases hm : mathPatterns.any (fun pat => strContains pat (pyLower s.input)) = true
  · have hm' : mathPatterns.any (fun pat => strContains pat (pyLower t.input)) = true := by
      rw [← h]; exact hm
    have hm2 : mathPatterns.any
        (fun pat => strContains pat (pyLower ({ s with next := "math", processing_type := "mathematical" } : AgentState).input)) = true := hm
    rw [router_math hm, router_math hm', router_math hm2]
    exact ⟨rfl, rfl, rfl⟩
  · have hmf : mathPatterns.any (fun pat => strContains pat (pyLower s.input)) = false :=
      Bool.eq_false_iff.mpr hm
    have hmf' : mathPatterns.any (fun pat => strContains pat (pyLower t.input)) = false := by
      rw [← h]; exact hmf
    by_cases hs : summarizeKeywords.any (fun kw => strContains kw (pyLower s.input)) = true
    · have hs' : summarizeKeywords.any (fun kw => strContains kw (pyLower t.input)) = true := by
        rw [← h]; exact hs
      have hm2 : mathPatterns.any
          (fun pat => strContains pat (pyLower ({ s with next := "summarizer", processing_type := "summarization" } : AgentState).input)) = false := hmf
      have hs2 : summarizeKeywords.any
          (fun kw => strContains kw (pyLower ({ s with next := "summarizer", processing_type := "summarization" } : AgentState).input)) = true := hs
      rw [router_summarizer hmf hs, router_summarizer hmf' hs', router_summarizer hm2 hs2]
      exact ⟨rfl, rfl, rfl⟩
    · have hsf : summarizeKeywords.any (fun kw => strContains kw (pyLower s.input)) = false :=
        Bool.eq_false_iff.mpr hs
      have hsf' : summarizeKeywords.any (fun kw => strContains kw (pyLower t.input)) = false := by
        rw [← h]; exact hsf
      have hm2 : mathPatterns.any
          (fun pat => strContains pat (pyLower ({ s with next := "fallback", processing_type := "general" } : AgentState).input)) = false := hmf
      have hs2 : summarizeKeywords.any
          (fun kw => strContains kw (pyLower ({ s with next := "fallback", processing_type := "general" } : AgentState).input)) = false := hsf
      rw [router_fallback hmf hsf, router_fallback hmf' hsf', router_fallback hm2 hs2]
      exact ⟨rfl, rfl, rfl⟩

/-- C5 counterexample: the source regex is anchored at the very start of the
input, so an input with leading whitespace before the summarize token is NOT
stripped, while the claim (modelled by specStripSummarize) says it is. -/
theorem C5_strip_counterexample :
    specStripSummarize " summarize: hello" = "hello"
    ∧ stripSummarize " summarize: hello" = " summarize: hello"
    ∧ stripSummarize " summarize: hello" ≠ specStripSummarize " summarize: hello" :=
  ⟨by decide, by decide, by decide⟩

/-- C5 amended: the summarize responder removes a leading case-insensitive
summarize token together with one optional colon and the whitespace run that
follows, but only when the token sits at the very start of the input (leading
whitespace is not skipped). -/
theorem C5_strip_amended (p c r : String)
    (hp : pyLower p = "summarize")
    (hc : c = ":" ∨ (c = "" ∧ r.data.head? ≠ some ':')) :
    stripSummarize (p ++ c ++ r) = String.mk (dropWs r.data) := by
  have hmap : p.data.map Char.toLower = "summarize".data := congrArg String.data hp
  have hlen : p.data.length = 9 := by
    have hml := congrArg List.length hmap
    simp only [List.length_map] at hml
    rw [hml]
    decide
  have hsplit : (p ++ c ++ r).data = p.data ++ (c.data ++ r.data) := by
    rw [String.data_append, String.data_append, List.append_assoc]
  have htake : (p ++ c ++ r).data.take 9 = p.data := by
    rw [hsplit, ← hlen, List.take_left]
  have hdrop : (p ++ c ++ r).data.drop 9 = c.data ++ r.data := by
    rw [hsplit, ← hlen, List.drop_left]
  unfold stripSummarize
  rw [htake, hmap, hdrop, if_pos rfl]
  cases hc with
  | inl hcol =>
      subst hcol
      have hcd : (":" : String).data = [':'] := by decide
      rw [hcd, List.singleton_append]
      simp [dropColon]
  | inr hempty =>
      obtain ⟨hce, hhead⟩ := hempty
      subst hce
      have hcd : ("" : String).data = ([] : List Char) := rfl
      rw [hcd, List.nil_append]
      cases hr : r.data with
      | nil => simp [dropColon]
      | cons a t =>
          rw [hr] at hhead
          have ha : a ≠ ':' := by
            intro he
            apply hhead
            rw [he]
            rfl
          simp [dropColon, ha]

/-- Witness for C5 amended at the example input of the spec. -/
theorem C5_strip_amended_witness :
    stripSummarize ("Summarize" ++ ":" ++ " how is earth formed?")
      = String.mk (dropWs (" how is earth formed?").data)
    ∧ String.mk (dropWs (" how is earth formed?").data) = "how is earth formed?" :=
  ⟨C5_strip_amended "Summarize" ":" " how is earth formed?" (by decide) (Or.inl rfl),
    by decide⟩

/-- C7: an error escaping the graph invocation is caught by run and turned
into a returned state whose category fields are error and whose output is a
non-empty [ERROR]-tagged string embedding the failure message; run is a total
function, so nothing is re-raised. -/
theorem C7_run_error_boundary (invokeGraph : AgentState → Except String AgentState)
    (inp e : String) (h : invokeGraph (initial_state inp) = Except.error e) :
    run invokeGraph inp
      = { input := inp, output := "[ERROR] Agent Error: " ++ e,
          next := "error", processing_type := "error" }
    ∧ (run invokeGraph inp).processing_type = "error"
    ∧ (run invokeGraph inp).next = "error"
    ∧ strStarts "[ERROR]" (run invokeGraph inp).output = true
    ∧ strContains e (run invokeGraph inp).output = true
    ∧ (run invokeGraph inp).output ≠ "" := by
  have hrun : run invokeGraph inp
      = { input := inp, output := "[ERROR] Agent Error: " ++ e,
          next := "error", processing_type := "error" } := by
    simp [run, h]
  obtain ⟨h1, h2, h3⟩ := err_output_props "[ERROR] Agent Error: " e (by decide) (by decide)
  rw [hrun]
  exact ⟨rfl, rfl, rfl, h1, h2, h3⟩

/-- Witness for C7 with a graph invocation that always fails with boom. -/
theorem C7_run_error_boundary_witness :
    run (fun _ => Except.error "boom") "hello"
      = { input := "hello", output := "[ERROR] Agent Error: " ++ "boom",
          next := "error", processing_type := "error" } :=
  (C7_run_error_boundary (fun _ => Except.error "boom") "hello" "boom" rfl).1

/-! Helper lemmas about one full graph invocation. -/

lemma final_node_output_nonempty (llm : LLM) {s : AgentState} (h : s.output = "") :
    (final_node llm s).output ≠ "" := by
  cases hg : llm (general_prompt s.input) with
  | ok response =>
      unfold final_node
      rw [h, if_pos rfl, hg]
      exact str_append_ne_empty "[GENERAL] General Response:\n" response (by decide)
  | error e =>
      unfold final_node
      rw [h, if_pos rfl, hg]
      exact str_append_ne_empty "[ERROR] Error: Could not process your request. Error: " e
        (by decide)

lemma graph_invoke_math {llm : LLM} {s : AgentState}
    (h : mathPatterns.any (fun pat => strContains pat (pyLower s.input)) = true) :
    graph_invoke llm s = math_node llm (router_node s) := by
  have hnext : decide_next_node (router_node s) = "math" := by
    rw [router_math h]; rfl
  simp only [graph_invoke, hnext, if_true]
  exact final_node_of_nonempty (math_node_output_nonempty llm (router_node s))

lemma graph_invoke_summarizer {llm : LLM} {s : AgentState}
    (hm : mathPatterns.any (fun pat => strContains pat (pyLower s.input)) = false)
    (hs : summarizeKeywords.any (fun kw => strContains kw (pyLower s.input)) = true) :
    graph_invoke llm s = summarizer_node llm (router_node s) := by
  have hnext : decide_next_node (router_node s) = "summarizer" := by
    rw [router_summarizer hm hs]; rfl
  simp only [graph_invoke, hnext, if_true]
  exact final_node_of_nonempty (summarizer_node_output_nonempty llm (router_node s))

lemma graph_invoke_fallback {llm : LLM} {s : AgentState}
    (hm : mathPatterns.any (fun pat => strContains pat (pyLower s.input)) = false)
    (hs : summarizeKeywords.any (fun kw => strContains kw (pyLower s.input)) = false) :
    graph_invoke llm s = final_node llm (router_node s) := by
  have hnext : decide_next_node (router_node s) = "fallback" := by
    rw [router_fallback hm hs]; rfl
  simp only [graph_invoke, hnext]
  rw [if_neg (by decide : ¬("fallback" : String) = "math"),
    if_neg (by decide : ¬("fallback" : String) = "summarizer")]

/-- C6: in each run the router assigns the category before any responder
runs and leaves output empty; then exactly one of the three writer paths
produces the output: the math node on the math route, the summarizer node on
the summarizer route, and on the fallback route no responder runs before the
final node (output still empty there) and the final node populates it. -/
theorem C6_category_first_single_writer (llm : LLM) (inp : String) :
    (router_node (initial_state inp)).output = ""
    ∧ (router_node (initial_state inp)).processing_type ≠ ""
    ∧ (((router_node (initial_state inp)).next = "math"
          ∧ (math_node llm (router_node (initial_state inp))).output ≠ ""
          ∧ graph_invoke llm (initial_state inp)
              = math_node llm (router_node (initial_state inp)))
      ∨ ((router_node (initial_state inp)).next = "summarizer"
          ∧ (summarizer_node llm (router_node (initial_state inp))).output ≠ ""
          ∧ graph_invoke llm (initial_state inp)
              = summarizer_node llm (router_node (initial_state inp)))
      ∨ ((router_node (initial_state inp)).next = "fallback"
          ∧ (router_node (initial_state inp)).output = ""
          ∧ graph_invoke llm (initial_state inp)
              = final_node llm (router_node (initial_state inp))
          ∧ (graph_invoke llm (initial_state inp)).output ≠ "")) := by
  by_cases hm : mathPatterns.any
      (fun pat => strContains pat (pyLower (initial_state inp).input)) = true
  · refine ⟨by rw [router_math hm]; rfl,
      by rw [router_math hm]; exact (by decide : ("mathematical" : String) ≠ ""),
      Or.inl ⟨?_, ?_, ?_⟩⟩
    · rw [router_math hm]
    · exact math_node_output_nonempty llm _
    · exact graph_invoke_math hm
  · have hmf : mathPatterns.any
        (fun pat => strContains pat (pyLower (initial_state inp).input)) = false :=
      Bool.eq_false_iff.mpr hm
    by_cases hs : summarizeKeywords.any
        (fun kw => strContains kw (pyLower (initial_state inp).input)) = true
    · refine ⟨by rw [router_summarizer hmf hs]; rfl,
        by rw [router_summarizer hmf hs]; exact (by decide : ("summarization" : String) ≠ ""),
        Or.inr (Or.inl ⟨?_, ?_, ?_⟩)⟩
      · rw [router_summarizer hmf hs]
      · exact summarizer_node_output_nonempty llm _
      · exact graph_invoke_summarizer hmf hs
    · have hsf : summarizeKeywords.any
          (fun kw => strContains kw (pyLower (initial_state inp).input)) = false :=
        Bool.eq_false_iff.mpr hs
      have hout : (router_node (initial_state inp)).output = "" := by
        rw [router_fallback hmf hsf]; rfl
      refine ⟨hout,
        by rw [router_fallback hmf hsf]; exact (by decide : ("general" : String) ≠ ""),
        Or.inr (Or.inr ⟨?_, hout, graph_invoke_fallback hmf hsf, ?_⟩)⟩
      · rw [router_fallback hmf hsf]
      · rw [graph_invoke_fallback hmf hsf]
        exact final_node_output_nonempty llm hout

/-! Helper lemmas for claim C10: math and summarizer outputs never carry the
[GENERAL] tag, whatever the backend replies. -/

lemma math_node_not_general_tag (llm : LLM) (s : AgentState) :
    strStarts "[GENERAL]" (math_node llm s).output = false := by
  cases h : llm (math_prompt s.input) with
  | ok response =>
      simp only [math_node, h]
      exact strStarts_append_false (by decide) (by decide) response
  | error e =>
      simp only [math_node, h]
      exact strStarts_append_false (by decide) (by decide) e

lemma summarizer_node_not_general_tag (llm : LLM) (s : AgentState) :
    strStarts "[GENERAL]" (summarizer_node llm s).output = false := by
  cases h : llm (summary_prompt (stripSummarize s.input)) with
  | ok response =>
      simp only [summarizer_node, h]
      exact strStarts_append_false (by decide) (by decide) response
  | error e =>
      simp only [summarizer_node, h]
      exact strStarts_append_false (by decide) (by decide) e

/-- C10: on the math and summarizer routes the fallback branch of the final
node is unreachable, because both responders always write a non-empty output
(success and exception branch alike), so the final node passes their state
through; consequently an output that starts with the [GENERAL] tag can only
arise on the fallback route. -/
theorem C10_general_tag_only_on_fallback (llm : LLM) (inp : String) :
    (math_node llm (router_node (initial_state inp))).output ≠ ""
    ∧ (summarizer_node llm (router_node (initial_state inp))).output ≠ ""
    ∧ final_node llm (math_node llm (router_node (initial_state inp)))
        = math_node llm (router_node (initial_state inp))
    ∧ final_node llm (summarizer_node llm (router_node (initial_state inp)))
        = summarizer_node llm (router_node (initial_state inp))
    ∧ (strStarts "[GENERAL]" (graph_invoke llm (initial_state inp)).output = true
        → (router_node (initial_state inp)).next = "fallback") := by
  refine ⟨math_node_output_nonempty llm _, summarizer_node_output_nonempty llm _,
    final_node_of_nonempty (math_node_output_nonempty llm _),
    final_node_of_nonempty (summarizer_node_output_nonempty llm _), ?_⟩
  intro hgen
  by_cases hm : mathPatterns.any
      (fun pat => strContains pat (pyLower (initial_state inp).input)) = true
  · exfalso
    rw [graph_invoke_math hm] at hgen
    have hfalse := math_node_not_general_tag llm (router_node (initial_state inp))
    exact Bool.false_ne_true (hfalse.symm.trans hgen)
  · have hmf : mathPatterns.any
        (fun pat => strContains pat (pyLower (initial_state inp).input)) = false :=
      Bool.eq_false_iff.mpr hm
    by_cases hs : summarizeKeywords.any
        (fun kw => strContains kw (pyLower (initial_state inp).input)) = true
    · exfalso
      rw [graph_invoke_summarizer hmf hs] at hgen
      have hfalse := summarizer_node_not_general_tag llm (router_node (initial_state inp))
      exact Bool.false_ne_true (hfalse.symm.trans hgen)
    · have hsf : summarizeKeywords.any
          (fun kw => strContains kw (pyLower (initial_state inp).input)) = false :=
        Bool.eq_false_iff.mpr hs
      rw [router_fallback hmf hsf]

/-- Witness for C10 at the input hello with a backend that replies ok. -/
theorem C10_general_tag_only_on_fallback_witness :
    (router_node (initial_state "hello")).next = "fallback" :=
  (C10_general_tag_only_on_fallback (fun _ => Except.ok "ok") "hello").2.2.2.2 (by decide)

/-- Witness for C9: two states sharing the input text but differing in every
other field are routed identically, and re-routing changes nothing. -/
theorem C9_router_deterministic_idempotent_witness :
    (router_node { input := "tell me a joke", output := "", next := "", processing_type := "" }).next
      = (router_node { input := "tell me a joke", output := "o", next := "n", processing_type := "p" }).next
    ∧ (router_node { input := "tell me a joke", output := "", next := "", processing_type := "" }).processing_type
      = (router_node { input := "tell me a joke", output := "o", next := "n", processing_type := "p" }).processing_type
    ∧ router_node (router_node { input := "tell me a joke", output := "", next := "", processing_type := "" })
      = router_node { input := "tell me a joke", output := "", next := "", processing_type := "" } :=
  C9_router_deterministic_idempotent
    { input := "tell me a joke", output := "", next := "", processing_type := "" }
    { input := "tell me a joke", output := "o", next := "n", processing_type := "p" } rfl
